import Mathlib

/-
Shallow embedding of the product-catalog HTTP server (src/server.js, two
Express/mongoose servers concatenated: the main server and a minimal
variant).  The MongoDB collection is modelled as a `List Product`; each
route handler becomes a pure function from the request parameters and the
store to a response (HTTP status) paired with the new store.

MongoDB/mongoose semantics captured:
  * `updateOne(filter, upd)` touches only the FIRST document matching the
    filter; `modifiedCount` is 1 exactly when the update actually changed
    that document's content, 0 otherwise (so a `$set` to the value already
    stored yields `modifiedCount = 0` even though `matchedCount = 1`).
  * the positional `$set {'variants.$.stock': n}` rewrites the stock of the
    first array element matched by the `'variants.sku'` filter;
  * `$push` appends one element at the end of the array;
  * `$pull {variants: {sku: s}}` removes EVERY array element whose sku
    equals `s` from the matched document;
  * `updateOne` / `findById*` run no schema validators (the routes never
    pass `runValidators`), so `required`/`min` constraints of the schema do
    not fire on these update paths;
  * none of the update routes touches `updated_at` (the main schema has no
    `timestamps: true` option, only creation-time defaults);
  * casting a route's `:id` parameter to ObjectId throws unless the string
    is a 24-char hex string (or any 12-char string); the main
    `GET /products/:id` catch maps that error to 500, the minimal server's
    `GET /products/:id/variants` catch maps it to 400.

Mongoose subdocument fields that a raw update may leave absent are
`Option`-typed.  The store-level unique index that `unique: true` may
create is not modelled: it can only reject duplicates across distinct
documents, and no claim below is decided by that case.
-/

namespace Catalog

/-- An embedded variant subdocument (variantSchema of the main server).
Fields are `Option`-typed because update routes bypass `required`
validation, so raw `$push`-ed subdocuments may miss fields. -/
structure Variant where
  color : Option String
  size : Option String
  stock : Option Int
  sku : Option String
  price_adjustment : Int
deriving Repr, DecidableEq

/-- A product document (productSchema of the main server) with its embedded
variant list.  `_id` is the generated ObjectId, kept as a string. -/
structure Product where
  _id : String
  name : String
  description : String
  base_price : Int
  category : String
  brand : String
  variants : List Variant
  tags : List String
  created_at : Nat
  updated_at : Nat
deriving Repr, DecidableEq

/-- Result of a mongoose `updateOne`: the match/modification counters the
route handlers inspect, plus the resulting collection state. -/
structure UpdateResult where
  matchedCount : Nat
  modifiedCount : Nat
  store : List Product
deriving Repr

/-- A route response: HTTP status plus the store after the request. -/
structure Resp where
  status : Nat
  store : List Product
deriving Repr, DecidableEq

/-- A read-route response: HTTP status plus the optional JSON body. -/
structure GetResp where
  status : Nat
  body : Option Product
deriving Repr, DecidableEq

/-- Hexadecimal digit test, for ObjectId well-formedness. -/
def isHexChar (c : Char) : Bool :=
  c.isDigit || (('a' ≤ c && c ≤ 'f') || ('A' ≤ c && c ≤ 'F'))

/-- A string casts to a mongoose ObjectId iff it is 24 hex characters
(or any 12-character string, read as 12 raw bytes). -/
def isWellFormedId (s : String) : Bool :=
  s.length == 12 || (s.length == 24 && s.toList.all isHexChar)

/-- Number of variants with the given sku in one embedded list. -/
def countSku (s : String) (vs : List Variant) : Nat :=
  (vs.filter (fun v => v.sku == some s)).length

/-- Whether a product document matches the filter `{'variants.sku': s}`. -/
def hasSku (s : String) (p : Product) : Bool :=
  p.variants.any (fun v => v.sku == some s)

/-- Number of variants with the given sku across the whole store. -/
def countSkuStore (s : String) (db : List Product) : Nat :=
  (db.map (fun p => countSku s p.variants)).sum

/-- Whether any variant in the store has the given sku. -/
def storeHasSku (s : String) (db : List Product) : Bool :=
  db.any (hasSku s)

/-- Total number of embedded variants in the store. -/
def totalVariants (db : List Product) : Nat :=
  (db.map (fun p => p.variants.length)).sum

/-- `Product.updateOne(filter, upd)`: apply `f` to the first document
satisfying `pred`; `modifiedCount` counts an actual content change. -/
def updateOne (pred : Product → Bool) (f : Product → Product) :
    List Product → UpdateResult
  | [] => { matchedCount := 0, modifiedCount := 0, store := [] }
  | p :: ps =>
    if pred p then
      let p' := f p
      { matchedCount := 1
        modifiedCount := if p' = p then 0 else 1
        store := p' :: ps }
    else
      let r := updateOne pred f ps
      { matchedCount := r.matchedCount
        modifiedCount := r.modifiedCount
        store := p :: r.store }

/-- Positional `$set {'variants.$.stock': n}`: rewrite the stock of the
first element matched by the `'variants.sku'` filter. -/
def setFirstStock (s : String) (n : Int) : List Variant → List Variant
  | [] => []
  | v :: vs =>
    if v.sku == some s then { v with stock := some n } :: vs
    else v :: setFirstStock s n vs

/-- `PATCH /products/variants/:sku/stock` (main server): positional stock
update; 404 exactly when `modifiedCount` is 0. -/
def updateVariantStock (s : String) (n : Int) (db : List Product) : Resp :=
  let r := updateOne (hasSku s)
    (fun p => { p with variants := setFirstStock s n p.variants }) db
  { status := if r.modifiedCount == 0 then 404 else 200, store := r.store }

/-- `POST /products/:id/variants` (main server): `$push` of the raw request
body onto the matched product's variant list; a malformed id makes the
ObjectId cast throw, mapped to 400 by the catch; 404 when `modifiedCount`
is 0; no validator runs. -/
def addVariant (id : String) (draft : Variant) (db : List Product) : Resp :=
  if isWellFormedId id then
    let r := updateOne (fun p => p._id == id)
      (fun p => { p with variants := p.variants ++ [draft] }) db
    { status := if r.modifiedCount == 0 then 404 else 201, store := r.store }
  else { status := 400, store := db }

/-- `$pull {variants: {sku: s}}` applied to one document: every element of
the embedded list whose sku equals `s` is removed. -/
def pullSku (s : String) (p : Product) : Product :=
  { p with variants := p.variants.filter (fun v => !(v.sku == some s)) }

/-- `DELETE /products/variants/:sku` (main server): `$pull` of every
element with the given sku from the first matching document; 404 when
`modifiedCount` is 0. -/
def removeVariantBySku (s : String) (db : List Product) : Resp :=
  let r := updateOne (hasSku s) (fun p => pullSku s p) db
  { status := if r.modifiedCount == 0 then 404 else 200, store := r.store }

/-- `GET /products/:id` (main server): `findById`; a malformed id makes the
cast throw and the catch answers 500; an absent product answers 404. -/
def getProductById (id : String) (db : List Product) : GetResp :=
  if isWellFormedId id then
    match db.find? (fun p => p._id == id) with
    | none => { status := 404, body := none }
    | some p => { status := 200, body := some p }
  else { status := 500, body := none }

/-- `GET /products` (main server): `Product.find()` returns the whole
collection in store order. -/
def listMain (db : List Product) : List Product := db

/-- An embedded variant of the minimal server (`VariantSchema`): color and
size are optional, stock defaults to 0. -/
structure MinVariant where
  color : Option String
  size : Option String
  stock : Int
deriving Repr, DecidableEq

/-- A product document of the minimal server (`ProductSchema`).  `_id` is
optional because the canned sample objects are plain literals without one. -/
structure MinProduct where
  _id : Option String
  name : String
  price : Int
  category : String
  variants : List MinVariant
deriving Repr, DecidableEq

/-- The canned `sampleProducts` array of the minimal server. -/
def sampleProducts : List MinProduct :=
  [ { _id := none, name := "T-Shirt", price := 25, category := "Clothing"
      variants := [ { color := some "Red", size := some "M", stock := 10 }
                  , { color := some "Blue", size := some "L", stock := 5 } ] }
  , { _id := none, name := "Laptop", price := 1200, category := "Electronics"
      variants := [ { color := some "Silver", size := some "15-inch", stock := 7 }
                  , { color := some "Black", size := some "13-inch", stock := 3 } ] }
  , { _id := none, name := "Sneakers", price := 80, category := "Footwear"
      variants := [ { color := some "White", size := some "42", stock := 15 }
                  , { color := some "Black", size := some "40", stock := 8 } ] } ]

/-- `GET /products` (minimal server): `products.length ? products :
sampleProducts` — canned data when the store is empty. -/
def listMinimal (db : List MinProduct) : List MinProduct :=
  if db.isEmpty then sampleProducts else db

/-- A variants-read response of the minimal server. -/
structure VarResp where
  status : Nat
  body : Option (List MinVariant)
deriving Repr, DecidableEq

/-- `GET /products/:id/variants` (minimal server): `findById(...).select`;
the catch maps a malformed id to 400; an absent product answers 404. -/
def getVariantsMin (id : String) (db : List MinProduct) : VarResp :=
  if isWellFormedId id then
    match db.find? (fun p => p._id == some id) with
    | none => { status := 404, body := none }
    | some p => { status := 200, body := some p.variants }
  else { status := 400, body := none }

/-- Specification-side form for the stock update: what the claimed frame
property says happens to a single variant. -/
def updStock (s : String) (n : Int) (v : Variant) : Variant :=
  if v.sku == some s then { v with stock := some n } else v

/-- Specification-side form on a product: stock of every sku-matching
variant rewritten, every other field untouched. -/
def updStockAll (s : String) (n : Int) (p : Product) : Product :=
  { p with variants := p.variants.map (updStock s n) }

/-- Concrete red variant with sku "A" and stock 5. -/
def vRedA : Variant :=
  { color := some "Red", size := some "M", stock := some 5, sku := some "A"
    price_adjustment := 0 }

/-- Concrete blue variant with sku "B". -/
def vBlueB : Variant :=
  { color := some "Blue", size := some "L", stock := some 7, sku := some "B"
    price_adjustment := 2 }

/-- Concrete black variant with sku "C". -/
def vBlackC : Variant :=
  { color := some "Black", size := some "S", stock := some 4, sku := some "C"
    price_adjustment := -1 }

/-- Concrete product owning the sku-"A" variant. -/
def prodA : Product :=
  { _id := "aaaaaaaaaaaaaaaaaaaaaaaa", name := "T-Shirt", description := "Basic tee"
    base_price := 25, category := "Clothing", brand := "Acme"
    variants := [vRedA], tags := ["sale"], created_at := 100, updated_at := 100 }

/-- Concrete product owning the sku-"B" and sku-"C" variants. -/
def prodB : Product :=
  { _id := "bbbbbbbbbbbbbbbbbbbbbbbb", name := "Laptop", description := "Thin laptop"
    base_price := 1200, category := "Electronics", brand := "Beta"
    variants := [vBlueB, vBlackC], tags := [], created_at := 50, updated_at := 60 }

/-- Concrete one-product store. -/
def dbA : List Product := [prodA]

/-- Concrete two-product store with globally unique skus "A", "B", "C". -/
def dbAB : List Product := [prodA, prodB]

/-- A draft variant missing the required color field and colliding on
sku "A". -/
def draftBad : Variant :=
  { color := none, size := some "M", stock := some 1, sku := some "A"
    price_adjustment := 0 }

/-- A fully populated draft variant with fresh sku "N". -/
def draftNew : Variant :=
  { color := some "Green", size := some "S", stock := some 2, sku := some "N"
    price_adjustment := 1 }

/-- A product whose embedded list has two elements with the same sku "D",
violating global sku uniqueness. -/
def prodDup : Product :=
  { _id := "cccccccccccccccccccccccc", name := "Mug", description := "Mug with twin skus"
    base_price := 9, category := "Home & Garden", brand := "Gamma"
    variants :=
      [ { color := some "Green", size := some "S", stock := some 1, sku := some "D"
          price_adjustment := 0 }
      , { color := some "White", size := some "M", stock := some 3, sku := some "E"
          price_adjustment := 0 }
      , { color := some "Green", size := some "L", stock := some 2, sku := some "D"
          price_adjustment := 0 } ]
    tags := [], created_at := 10, updated_at := 10 }

/-- Replacing the variant list of a product by an equal list is the
identity. -/
theorem product_eq_of_variants_eq (p : Product) (vs : List Variant)
    (h : vs = p.variants) : { p with variants := vs } = p := by
  cases p
  simp_all

/-- Unfolding lemma: sku count on a cons cell. -/
theorem countSku_cons (s : String) (v : Variant) (vs : List Variant) :
    countSku s (v :: vs)
      = (if v.sku == some s then 1 else 0) + countSku s vs := by
  by_cases h : v.sku == some s <;>
    simp [countSku, List.filter_cons, h, Nat.add_comm]

/-- A sku count is zero exactly when no element of the list matches. -/
theorem countSku_eq_zero_iff (s : String) (vs : List Variant) :
    countSku s vs = 0 ↔ vs.any (fun v => v.sku == some s) = false := by
  induction vs with
  | nil => simp [countSku]
  | cons v vs ih =>
    by_cases h : v.sku == some s <;>
      simp [countSku_cons, h, ih]

/-- A document fails the `'variants.sku'` filter exactly when its sku
count is zero. -/
theorem hasSku_false_iff (s : String) (p : Product) :
    hasSku s p = false ↔ countSku s p.variants = 0 := by
  rw [countSku_eq_zero_iff]
  exact Iff.rfl

/-- A document passes the `'variants.sku'` filter exactly when its sku
count is positive. -/
theorem hasSku_true_iff (s : String) (p : Product) :
    hasSku s p = true ↔ 0 < countSku s p.variants := by
  rw [Nat.pos_iff_ne_zero, Ne, countSku_eq_zero_iff]
  simp [hasSku]

/-- Pulling a sku that does not occur leaves the list unchanged. -/
theorem filter_eq_self_of_countZero (s : String) (vs : List Variant)
    (h : countSku s vs = 0) :
    vs.filter (fun v => !(v.sku == some s)) = vs := by
  induction vs with
  | nil => rfl
  | cons v vs ih =>
    rw [countSku_cons] at h
    by_cases hv : v.sku == some s
    · simp [hv] at h
    · simp only [List.filter_cons]
      have h0 : countSku s vs = 0 := by simpa [hv] using h
      simp [hv, ih h0]

/-- Rewriting the stock of a sku that does not occur is the identity. -/
theorem map_updStock_eq_self_of_countZero (s : String) (n : Int)
    (vs : List Variant) (h : countSku s vs = 0) :
    vs.map (updStock s n) = vs := by
  induction vs with
  | nil => rfl
  | cons v vs ih =>
    rw [countSku_cons] at h
    by_cases hv : v.sku == some s
    · simp [hv] at h
    · have h0 : countSku s vs = 0 := by simpa [hv] using h
      simp [updStock, hv, ih h0]

/-- With at most one matching element, the positional stock rewrite agrees
with rewriting every matching element. -/
theorem setFirstStock_eq_map (s : String) (n : Int) (vs : List Variant)
    (h : countSku s vs ≤ 1) :
    setFirstStock s n vs = vs.map (updStock s n) := by
  induction vs with
  | nil => rfl
  | cons v vs ih =>
    rw [countSku_cons] at h
    by_cases hv : v.sku == some s
    · have h0 : countSku s vs = 0 := by
        simp [hv] at h
        omega
      simp [setFirstStock, updStock, hv,
        map_updStock_eq_self_of_countZero s n vs h0]
    · have h1 : countSku s vs ≤ 1 := by simpa [hv] using h
      simp [setFirstStock, updStock, hv, ih h1]

/-- Filtering a pulled sku out removes every occurrence. -/
theorem countSku_filter_self (s : String) (vs : List Variant) :
    countSku s (vs.filter (fun v => !(v.sku == some s))) = 0 := by
  induction vs with
  | nil => rfl
  | cons v vs ih =>
    by_cases hv : v.sku == some s <;>
      simp [List.filter_cons, countSku_cons, hv, ih]

/-- The pull removes exactly as many elements as there were matches. -/
theorem length_filter_add_countSku (s : String) (vs : List Variant) :
    (vs.filter (fun v => !(v.sku == some s))).length + countSku s vs
      = vs.length := by
  induction vs with
  | nil => rfl
  | cons v vs ih =>
    by_cases hv : v.sku == some s <;>
      simp [List.filter_cons, countSku_cons, hv] <;> omega

/-- Unfolding lemma: store-wide sku count on a cons cell. -/
theorem countSkuStore_cons (s : String) (p : Product) (db : List Product) :
    countSkuStore s (p :: db) = countSku s p.variants + countSkuStore s db := by
  simp [countSkuStore]

/-- Unfolding lemma: store-wide sku search on a cons cell. -/
theorem storeHasSku_cons (s : String) (p : Product) (db : List Product) :
    storeHasSku s (p :: db) = (hasSku s p || storeHasSku s db) := by
  simp [storeHasSku]

/-- Some variant in the store has the sku exactly when the store-wide
count is positive. -/
theorem storeHasSku_true_iff (s : String) (db : List Product) :
    storeHasSku s db = true ↔ 0 < countSkuStore s db := by
  induction db with
  | nil => simp [storeHasSku, countSkuStore]
  | cons p ps ih =>
    rw [storeHasSku_cons, countSkuStore_cons]
    simp only [Bool.or_eq_true, hasSku_true_iff, ih]
    omega

/-- Unfolding lemma: total variant tally on a cons cell. -/
theorem totalVariants_cons (p : Product) (db : List Product) :
    totalVariants (p :: db) = p.variants.length + totalVariants db := by
  simp [totalVariants]

/-- Rewriting a sku's stock in a document free of that sku is the
identity. -/
theorem updStockAll_eq_self (s : String) (n : Int) (p : Product)
    (h : countSku s p.variants = 0) : updStockAll s n p = p :=
  product_eq_of_variants_eq p _ (map_updStock_eq_self_of_countZero s n p.variants h)

/-- Pulling a sku from a document free of that sku is the identity. -/
theorem pullSku_eq_self (s : String) (p : Product)
    (h : countSku s p.variants = 0) : pullSku s p = p :=
  product_eq_of_variants_eq p _ (filter_eq_self_of_countZero s p.variants h)

/-- Pulling a sku that occurs in the document really changes it. -/
theorem pullSku_ne_self (s : String) (p : Product)
    (h : hasSku s p = true) : pullSku s p ≠ p := by
  intro he
  have hl := congrArg (fun q => q.variants.length) he
  simp only [pullSku] at hl
  have hc := length_filter_add_countSku s p.variants
  have hpos : 0 < countSku s p.variants := (hasSku_true_iff s p).mp h
  omega

/-- Appending a draft to a document's variant list really changes it. -/
theorem push_ne_self (p : Product) (draft : Variant) :
    { p with variants := p.variants ++ [draft] } ≠ p := by
  intro he
  have hl := congrArg (fun q => q.variants.length) he
  simp at hl

/-- An `updateOne` whose filter matches nothing reports zero counts and
leaves the collection unchanged. -/
theorem updateOne_no_match (pred : Product → Bool) (f : Product → Product)
    (db : List Product) (h : ∀ p ∈ db, pred p = false) :
    updateOne pred f db = { matchedCount := 0, modifiedCount := 0, store := db } := by
  induction db with
  | nil => rfl
  | cons p ps ih =>
    have hp : pred p = false := h p (by simp)
    simp [updateOne, hp, ih (fun q hq => h q (by simp [hq]))]

/-- An `updateOne` whose filter matches some document, on which the update
is a real change, reports `modifiedCount = 1`. -/
theorem updateOne_modifiedCount_one (pred : Product → Bool) (f : Product → Product)
    (db : List Product) (hex : db.any pred = true)
    (hch : ∀ p, pred p = true → f p ≠ p) :
    (updateOne pred f db).modifiedCount = 1 := by
  induction db with
  | nil => simp at hex
  | cons p ps ih =>
    by_cases hp : pred p
    · simp only [updateOne, hp, if_true]
      rw [if_neg (hch p hp)]
    · have hex' : ps.any pred = true := by simpa [List.any_cons, hp] using hex
      simp [updateOne, hp, ih hex']

/-- An update that never touches `updated_at` leaves every document's
`updated_at` in place. -/
theorem updateOne_preserves_updated_at (pred : Product → Bool)
    (f : Product → Product) (db : List Product)
    (h : ∀ p, (f p).updated_at = p.updated_at) :
    (updateOne pred f db).store.map Product.updated_at
      = db.map Product.updated_at := by
  induction db with
  | nil => rfl
  | cons p ps ih =>
    by_cases hp : pred p <;> simp [updateOne, hp, h p, ih]

/-- Rewriting a sku's stock across a store free of that sku is the
identity. -/
theorem map_updStockAll_eq_self (s : String) (n : Int) (db : List Product)
    (h : countSkuStore s db = 0) : db.map (updStockAll s n) = db := by
  induction db with
  | nil => rfl
  | cons p ps ih =>
    rw [countSkuStore_cons] at h
    have h1 : countSku s p.variants = 0 := by omega
    have h2 : countSkuStore s ps = 0 := by omega
    simp [updStockAll_eq_self s n p h1, ih h2]

/-- Pulling a sku across a store free of that sku is the identity. -/
theorem map_pullSku_eq_self (s : String) (db : List Product)
    (h : countSkuStore s db = 0) : db.map (pullSku s) = db := by
  induction db with
  | nil => rfl
  | cons p ps ih =>
    rw [countSkuStore_cons] at h
    have h1 : countSku s p.variants = 0 := by omega
    have h2 : countSkuStore s ps = 0 := by omega
    simp [pullSku_eq_self s p h1, ih h2]

/-- On a store holding the sku exactly once, the positional `updateOne`
leaves the same collection as rewriting every matching variant. -/
theorem updateOne_stock_store (s : String) (n : Int) (db : List Product)
    (h : countSkuStore s db = 1) :
    (updateOne (hasSku s)
        (fun p => { p with variants := setFirstStock s n p.variants }) db).store
      = db.map (updStockAll s n) := by
  induction db with
  | nil => rfl
  | cons p ps ih =>
    rw [countSkuStore_cons] at h
    by_cases hp : hasSku s p
    · have h1 : 0 < countSku s p.variants := (hasSku_true_iff s p).mp hp
      have hc1 : countSku s p.variants ≤ 1 := by omega
      have hc0 : countSkuStore s ps = 0 := by omega
      simp only [updateOne, hp, if_true, List.map_cons]
      rw [setFirstStock_eq_map s n p.variants hc1,
        map_updStockAll_eq_self s n ps hc0]
      exact rfl
    · have h1 : countSku s p.variants = 0 :=
        (hasSku_false_iff s p).mp (by simpa using hp)
      have h2 : countSkuStore s ps = 1 := by omega
      simp only [updateOne, hp, if_false, List.map_cons, Bool.false_eq_true]
      rw [updStockAll_eq_self s n p h1]
      simp [ih h2]

/-- On a store holding the sku exactly once, the `$pull` `updateOne`
leaves the same collection as pulling the sku from every document. -/
theorem updateOne_pull_store (s : String) (db : List Product)
    (h : countSkuStore s db = 1) :
    (updateOne (hasSku s) (fun p => pullSku s p) db).store
      = db.map (pullSku s) := by
  induction db with
  | nil => rfl
  | cons p ps ih =>
    rw [countSkuStore_cons] at h
    by_cases hp : hasSku s p
    · have h1 : 0 < countSku s p.variants := (hasSku_true_iff s p).mp hp
      have hc0 : countSkuStore s ps = 0 := by omega
      simp only [updateOne, hp, if_true, List.map_cons]
      rw [map_pullSku_eq_self s ps hc0]
    · have h1 : countSku s p.variants = 0 :=
        (hasSku_false_iff s p).mp (by simpa using hp)
      have h2 : countSkuStore s ps = 1 := by omega
      simp only [updateOne, hp, if_false, List.map_cons, Bool.false_eq_true]
      rw [pullSku_eq_self s p h1]
      simp [ih h2]

/-- The pull shrinks the store's variant tally by exactly the number of
occurrences of the sku. -/
theorem totalVariants_map_pull (s : String) (db : List Product) :
    totalVariants (db.map (pullSku s)) + countSkuStore s db
      = totalVariants db := by
  induction db with
  | nil => rfl
  | cons p ps ih =>
    have h1 := length_filter_add_countSku s p.variants
    simp only [List.map_cons, totalVariants_cons, countSkuStore_cons, pullSku] at *
    omega

/-- C1: on a store holding exactly one variant with the given sku,
`updateVariantStock` rewrites only that variant's stock field: the
resulting store equals the original with every sku-matching variant's
stock set to the new value and nothing else changed — sibling variants,
every other product field, `updated_at` included. -/
theorem updateVariantStock_frame (s : String) (n : Int) (db : List Product)
    (h : countSkuStore s db = 1) :
    (updateVariantStock s n db).store = db.map (updStockAll s n) := by
  simpa [updateVariantStock] using updateOne_stock_store s n db h

/-- C1 witness: the frame property evaluated on a concrete two-product
store whose sku "A" occurs exactly once. -/
theorem updateVariantStock_frame_witness :
    countSkuStore "A" dbAB = 1
    ∧ (updateVariantStock "A" 9 dbAB).store = dbAB.map (updStockAll "A" 9) :=
  ⟨by decide, updateVariantStock_frame "A" 9 dbAB (by decide)⟩

/-- C2 (failing-input evaluation): the store holds a variant with sku "A"
and stock 5, yet updating that variant's stock to the same value 5
answers 404 "Variant not found" and changes nothing: the route tests
`modifiedCount`, which is 0 for a no-op `$set` even though the filter
matched the variant. -/
theorem updateVariantStock_matched_yet_notFound :
    storeHasSku "A" dbA = true
    ∧ (updateVariantStock "A" 5 dbA).status = 404
    ∧ (updateVariantStock "A" 5 dbA).store = dbA := by
  exact ⟨by decide, by decide, by decide⟩

/-- C3 (failing-input evaluation): a negative new stock is accepted: the
route replies 200 and the store now carries stock -3, because the
`updateOne` path runs no schema validator, so `min: 0` never fires. -/
theorem updateVariantStock_accepts_negative_stock :
    (updateVariantStock "A" (-3) dbA).status = 200
    ∧ (updateVariantStock "A" (-3) dbA).store.map
        (fun p => p.variants.map Variant.stock) = [[some (-3)]] := by
  exact ⟨by decide, by decide⟩

/-- C4 (failing-input evaluation): a draft that both misses the required
color field and collides with the existing sku "A" of the same product is
appended anyway with 201: the `$push` route performs no sku-uniqueness or
required-field check. -/
theorem addVariant_appends_without_validation :
    storeHasSku "A" dbA = true
    ∧ draftBad.color = none
    ∧ draftBad.sku = some "A"
    ∧ (addVariant "aaaaaaaaaaaaaaaaaaaaaaaa" draftBad dbA).status = 201
    ∧ (addVariant "aaaaaaaaaaaaaaaaaaaaaaaa" draftBad dbA).store.map
        Product.variants = [[vRedA, draftBad]] := by
  exact ⟨by decide, rfl, rfl, by decide, by decide⟩

/-- C5: on a store where the sku occurs exactly once (global uniqueness
restricted to that sku, and the sku present), `removeVariantBySku`
answers 200 and removes exactly that one element: the resulting store is
the original with the sku pulled from every list — the owning product
loses just that element, every other variant and product is unchanged —
and the total variant tally drops by one.  When no variant has the sku it
answers 404 and leaves the store unchanged. -/
theorem removeVariantBySku_removes_unique_match (s : String) (db : List Product) :
    (countSkuStore s db = 1 →
        (removeVariantBySku s db).status = 200
        ∧ (removeVariantBySku s db).store = db.map (pullSku s)
        ∧ totalVariants (removeVariantBySku s db).store + 1 = totalVariants db)
    ∧ (storeHasSku s db = false →
        (removeVariantBySku s db).status = 404
        ∧ (removeVariantBySku s db).store = db) := by
  constructor
  · intro h
    have hex : db.any (hasSku s) = true :=
      (storeHasSku_true_iff s db).mpr (by omega)
    have hmod : (updateOne (hasSku s) (fun p => pullSku s p) db).modifiedCount = 1 :=
      updateOne_modifiedCount_one _ _ db hex (fun p hp => pullSku_ne_self s p hp)
    have hstore : (removeVariantBySku s db).store = db.map (pullSku s) := by
      simpa [removeVariantBySku] using updateOne_pull_store s db h
    refine ⟨by simp [removeVariantBySku, hmod], hstore, ?_⟩
    rw [hstore]
    have htot := totalVariants_map_pull s db
    omega
  · intro h
    have h' : db.any (hasSku s) = false := h
    have hall : ∀ p ∈ db, hasSku s p = false := by
      intro p hp
      simpa using (List.any_eq_false.mp h') p hp
    have hres := updateOne_no_match (hasSku s) (fun p => pullSku s p) db hall
    exact ⟨by simp [removeVariantBySku, hres], by simp [removeVariantBySku, hres]⟩

/-- C5 witness: both branches evaluated on a concrete two-product store
with globally unique skus, at a present sku "A" and an absent sku "Z". -/
theorem removeVariantBySku_removes_unique_match_witness :
    (countSkuStore "A" dbAB = 1
      ∧ ((removeVariantBySku "A" dbAB).status = 200
        ∧ (removeVariantBySku "A" dbAB).store = dbAB.map (pullSku "A")
        ∧ totalVariants (removeVariantBySku "A" dbAB).store + 1
            = totalVariants dbAB))
    ∧ (storeHasSku "Z" dbAB = false
      ∧ ((removeVariantBySku "Z" dbAB).status = 404
        ∧ (removeVariantBySku "Z" dbAB).store = dbAB)) :=
  ⟨⟨by decide, (removeVariantBySku_removes_unique_match "A" dbAB).1 (by decide)⟩,
   ⟨by decide, (removeVariantBySku_removes_unique_match "Z" dbAB).2 (by decide)⟩⟩

/-- C6 (general form and failing-input evaluation): no mutating variant
route ever touches `updated_at` — the schema has no timestamps option and
no route sets the field — so a store whose product demonstrably changes
(stock 5 becomes 3, status 200) keeps its stale `updated_at`. -/
theorem mutations_never_advance_updated_at :
    (∀ (s : String) (n : Int) (db : List Product),
        (updateVariantStock s n db).store.map Product.updated_at
          = db.map Product.updated_at)
    ∧ (∀ (id : String) (draft : Variant) (db : List Product),
        (addVariant id draft db).store.map Product.updated_at
          = db.map Product.updated_at)
    ∧ (∀ (s : String) (db : List Product),
        (removeVariantBySku s db).store.map Product.updated_at
          = db.map Product.updated_at)
    ∧ ((updateVariantStock "A" 3 dbA).status = 200
        ∧ (updateVariantStock "A" 3 dbA).store ≠ dbA
        ∧ (updateVariantStock "A" 3 dbA).store.map Product.updated_at
            = dbA.map Product.updated_at) := by
  refine ⟨?_, ?_, ?_, by decide, by decide, by decide⟩
  · intro s n db
    simpa [updateVariantStock] using
      updateOne_preserves_updated_at (hasSku s)
        (fun p => { p with variants := setFirstStock s n p.variants }) db
        (fun p => rfl)
  · intro id draft db
    by_cases hwf : isWellFormedId id
    · simpa [addVariant, hwf] using
        updateOne_preserves_updated_at (fun p => p._id == id)
          (fun p => { p with variants := p.variants ++ [draft] }) db
          (fun p => rfl)
    · simp [addVariant, hwf]
  · intro s db
    simpa [removeVariantBySku] using
      updateOne_preserves_updated_at (hasSku s)
        (fun p => pullSku s p) db (fun p => rfl)

/-- C7 counterexample: on the main server a GET at a malformed product id
is answered 500 (its catch-all), not 400 as the claim states. -/
theorem getProductById_malformed_500 :
    (getProductById "zz" dbA).status = 500
    ∧ (getProductById "zz" dbA).status ≠ 400 := by
  exact ⟨by decide, by decide⟩

/-- C7 amended: a malformed id is mapped to 500 by the main server's GET
/products/:id (whose catch turns the ObjectId cast error into 500), while
the minimal server's GET /products/:id/variants maps it to 400; in both,
a well-formed id matching no product yields 404. -/
theorem getById_status_mapping (id : String) (db : List Product)
    (dbm : List MinProduct) :
    (isWellFormedId id = false →
        (getProductById id db).status = 500
        ∧ (getVariantsMin id dbm).status = 400)
    ∧ (isWellFormedId id = true →
        db.find? (fun p => p._id == id) = none →
        (getProductById id db).status = 404)
    ∧ (isWellFormedId id = true →
        dbm.find? (fun p => p._id == some id) = none →
        (getVariantsMin id dbm).status = 404) := by
  refine ⟨fun h => ⟨?_, ?_⟩, fun h hf => ?_, fun h hf => ?_⟩
  · simp [getProductById, h]
  · simp [getVariantsMin, h]
  · simp [getProductById, h, hf]
  · simp [getVariantsMin, h, hf]

/-- C7 witness: the three status mappings evaluated at the malformed id
"zz" and at a well-formed 24-hex id absent from the store. -/
theorem getById_status_mapping_witness :
    ((getProductById "zz" dbA).status = 500
      ∧ (getVariantsMin "zz" []).status = 400)
    ∧ (getProductById "ffffffffffffffffffffffff" dbA).status = 404
    ∧ (getVariantsMin "ffffffffffffffffffffffff" []).status = 404 :=
  ⟨(getById_status_mapping "zz" dbA []).1 (by decide),
   (getById_status_mapping "ffffffffffffffffffffffff" dbA []).2.1
     (by decide) (by decide),
   (getById_status_mapping "ffffffffffffffffffffffff" [] []).2.2
     (by decide) rfl⟩

/-- C8: on a store where the draft's sku is fresh (occurs nowhere) and the
target product id exists, appending the draft with `addVariant` and then
deleting its sku with `removeVariantBySku` restores the store exactly —
in particular the target product's variant list returns to its prior
content. -/
theorem addVariant_removeVariant_roundtrip (pid s : String) (draft : Variant)
    (db : List Product) (hwf : isWellFormedId pid = true)
    (hex : db.any (fun p => p._id == pid) = true)
    (hsku : draft.sku = some s)
    (hfresh : countSkuStore s db = 0) :
    (removeVariantBySku s (addVariant pid draft db).store).store = db := by
  induction db with
  | nil => simp at hex
  | cons p ps ih =>
    rw [countSkuStore_cons] at hfresh
    have hp0 : countSku s p.variants = 0 := by omega
    have hps0 : countSkuStore s ps = 0 := by omega
    by_cases hid : p._id == pid
    · have hstore : (addVariant pid draft (p :: ps)).store
          = { p with variants := p.variants ++ [draft] } :: ps := by
        simp [addVariant, hwf, updateOne, hid]
      rw [hstore]
      have hhas : hasSku s { p with variants := p.variants ++ [draft] } = true := by
        simp [hasSku, List.any_append, hsku]
      have hfil : (p.variants ++ [draft]).filter (fun v => !(v.sku == some s))
          = p.variants := by
        rw [List.filter_append, filter_eq_self_of_countZero s p.variants hp0]
        simp [List.filter_cons, hsku]
      have hpull : pullSku s { p with variants := p.variants ++ [draft] } = p :=
        product_eq_of_variants_eq p _ hfil
      simp [removeVariantBySku, updateOne, hhas, hpull]
    · have hstoreA : (addVariant pid draft (p :: ps)).store
          = p :: (addVariant pid draft ps).store := by
        simp [addVariant, hwf, updateOne, hid]
      rw [hstoreA]
      have hhas : hasSku s p = false := (hasSku_false_iff s p).mpr hp0
      have hex' : ps.any (fun q => q._id == pid) = true := by
        simpa [List.any_cons, hid] using hex
      have hrec : (updateOne (hasSku s) (fun q => pullSku s q)
          (addVariant pid draft ps).store).store = ps := by
        simpa [removeVariantBySku] using ih hex' hps0
      simp [removeVariantBySku, updateOne, hhas, hrec]

/-- C8 witness: round trip of a fresh-sku draft on a concrete two-product
store. -/
theorem addVariant_removeVariant_roundtrip_witness :
    (isWellFormedId "aaaaaaaaaaaaaaaaaaaaaaaa" = true
      ∧ dbAB.any (fun p => p._id == "aaaaaaaaaaaaaaaaaaaaaaaa") = true
      ∧ draftNew.sku = some "N"
      ∧ countSkuStore "N" dbAB = 0)
    ∧ (removeVariantBySku "N"
        (addVariant "aaaaaaaaaaaaaaaaaaaaaaaa" draftNew dbAB).store).store = dbAB :=
  ⟨⟨by decide, by decide, rfl, by decide⟩,
   addVariant_removeVariant_roundtrip "aaaaaaaaaaaaaaaaaaaaaaaa" "N" draftNew dbAB
     (by decide) (by decide) rfl (by decide)⟩

/-- C9 counterexample: on the empty store the minimal server's GET
/products answers the canned sample catalog, which is not the empty
sequence. -/
theorem listMinimal_empty_returns_samples :
    listMinimal [] = sampleProducts ∧ sampleProducts ≠ [] :=
  ⟨rfl, by decide⟩

/-- C9 amended: the main server's GET /products returns exactly the
persisted products in store order; the minimal server's GET /products
does so only on a non-empty store and falls back to the canned
`sampleProducts` on the empty store. -/
theorem list_routes_behavior :
    (∀ db : List Product, listMain db = db)
    ∧ listMinimal [] = sampleProducts
    ∧ (∀ (q : MinProduct) (qs : List MinProduct),
        listMinimal (q :: qs) = q :: qs) :=
  ⟨fun _ => rfl, rfl, fun _ _ => rfl⟩

/-- C10: when the first product matching the sku holds it in several
embedded elements (uniqueness violated), the `$pull` route removes every
matching element of that product in the one operation: none is left, and
the list shrinks by the full occurrence count (at least two), not by one. -/
theorem removeVariantBySku_pulls_all_matches (pre post : List Product)
    (p : Product) (s : String)
    (hpre : ∀ q ∈ pre, hasSku s q = false)
    (hcount : 2 ≤ countSku s p.variants) :
    (removeVariantBySku s (pre ++ p :: post)).store
        = pre ++ pullSku s p :: post
    ∧ countSku s (pullSku s p).variants = 0
    ∧ (pullSku s p).variants.length + countSku s p.variants
        = p.variants.length := by
  refine ⟨?_, ?_, ?_⟩
  · induction pre with
    | nil =>
      have hp : hasSku s p = true := (hasSku_true_iff s p).mpr (by omega)
      simp [removeVariantBySku, updateOne, hp]
    | cons q qs ih =>
      have hq : hasSku s q = false := hpre q (by simp)
      have hrec := ih (fun r hr => hpre r (by simp [hr]))
      simp only [removeVariantBySku, List.cons_append] at hrec ⊢
      simp only [updateOne, hq, Bool.false_eq_true, if_false] at hrec ⊢
      simp [hrec]
  · simpa [pullSku] using countSku_filter_self s p.variants
  · simpa [pullSku] using length_filter_add_countSku s p.variants

/-- C10 witness: a store whose second product carries sku "D" twice; both
copies disappear in the single delete. -/
theorem removeVariantBySku_pulls_all_matches_witness :
    ((∀ q ∈ [prodA], hasSku "D" q = false)
      ∧ 2 ≤ countSku "D" prodDup.variants)
    ∧ ((removeVariantBySku "D" ([prodA] ++ prodDup :: [prodB])).store
        = [prodA] ++ pullSku "D" prodDup :: [prodB]
      ∧ countSku "D" (pullSku "D" prodDup).variants = 0
      ∧ (pullSku "D" prodDup).variants.length + countSku "D" prodDup.variants
          = prodDup.variants.length) :=
  ⟨⟨by decide, by decide⟩,
   removeVariantBySku_pulls_all_matches [prodA] [prodB] prodDup "D"
     (by decide) (by decide)⟩

end Catalog
